import Mathlib

/-!
Verification of the Budget Tracker's aggregation, report and import logic
(`src/app1.py`) against its specification.

The embedding is a direct translation of the Python source:
  * a pandas `DataFrame` of transactions is a `List Tx`;
  * amounts (Python floats holding currency values) are modelled as `ℚ`;
  * dates are `Date` records with `year`/`month`/`day` fields
    (`pd.to_datetime(...).dt.year` becomes `Date.year`, and so on);
  * the optional `year`/`month` filter arguments (`None` in Python, falsy
    in `if year:` / `if month:`) are `Option ℕ`;
  * fallible parsing returns `Option`, and `process_uploaded_file`'s
    `(df, message)` / `(None, message)` pair is an `UploadResult`.
-/

namespace BudgetTracker

/-- A calendar date, as `datetime.date` (no time component). -/
structure Date where
  year : ℕ
  month : ℕ
  day : ℕ
deriving DecidableEq, Repr

/-- One row of the `transactions` table
(`src/app1.py` lines 96-104: id, type, category, amount, currency, date, notes). -/
structure Tx where
  id : ℕ
  type : String
  category : String
  amount : ℚ
  currency : String
  date : Date
  notes : String
deriving DecidableEq, Repr

/-- `tmp = tmp[tmp['date'].dt.year == year]` — the year filter applied when the
argument is present (`if year:`; `None` is falsy, and a year of 0 is not a
reachable input, so Python's falsiness of 0 coincides with `Option.none`). -/
def filterYear (year : Option ℕ) (df : List Tx) : List Tx :=
  match year with
  | none => df
  | some y => df.filter (fun t => t.date.year == y)

/-- `tmp = tmp[tmp['date'].dt.month == month]` — the month filter
(`if month:`; months from the UI are 1..12, never 0). -/
def filterMonth (month : Option ℕ) (df : List Tx) : List Tx :=
  match month with
  | none => df
  | some m => df.filter (fun t => t.date.month == m)

/-- `tmp[tmp['type'] == ty]['amount'].sum()` — the sum of the amounts of the
rows of one type.  A pandas sum of an empty selection is `0.0`, which the
list sum mirrors. -/
def totalForType (ty : String) (df : List Tx) : ℚ :=
  ((df.filter (fun t => t.type == ty)).map Tx.amount).sum

/-- `monthly_summary` (`src/app1.py` lines 136-151).  An empty input returns
the empty `DataFrame(columns=["metric","value"])`, modelled as `[]`; otherwise
the three metric/value rows, filtered by the optional year and month. -/
def monthly_summary (df : List Tx) (year month : Option ℕ) : List (String × ℚ) :=
  if df = [] then []
  else
    let tmp := filterMonth month (filterYear year df)
    let income := totalForType "income" tmp
    let expense := totalForType "expense" tmp
    let balance := income - expense
    [("Total Income", income), ("Total Expense", expense), ("Balance", balance)]

/-- Look a metric's value up in a summary frame, as
`summary_df[summary_df['metric'] == m]['value']` would. -/
def getMetric (s : List (String × ℚ)) (m : String) : Option ℚ :=
  (s.find? (fun r => r.1 == m)).map Prod.snd

/-- Date comparison used by SQLite on the ISO `YYYY-MM-DD` strings it stores:
lexicographic on (year, month, day). -/
def dateLt (a b : Date) : Bool :=
  a.year < b.year ||
    (a.year == b.year && (a.month < b.month || (a.month == b.month && a.day < b.day)))

/-- `ORDER BY date DESC, id DESC` (`load_transactions`, `src/app1.py` line 122):
`a` comes no later than `b` when its date is larger, or dates agree and its id
is at least as large. -/
def txBefore (a b : Tx) : Bool :=
  dateLt b.date a.date || (a.date == b.date && b.id ≤ a.id)

/-- Insert one row into a list already in `txBefore` order. -/
def insertTx (t : Tx) : List Tx → List Tx
  | [] => [t]
  | h :: rest => if txBefore t h then t :: h :: rest else h :: insertTx t rest

/-- `load_transactions` / `Store.all()` — the stored rows in
`ORDER BY date DESC, id DESC` order (`src/app1.py` lines 120-126). -/
def storeAll (txs : List Tx) : List Tx :=
  txs.foldr insertTx []

/-- Two-digit zero padding, as in `%m`/`%d` of `str(datetime.date)`. -/
def pad2 (n : ℕ) : String :=
  if n < 10 then "0" ++ toString n else toString n

/-- Four-digit zero padding for the year of `str(datetime.date)`. -/
def pad4 (n : ℕ) : String :=
  if n < 10 then "000" ++ toString n
  else if n < 100 then "00" ++ toString n
  else if n < 1000 then "0" ++ toString n
  else toString n

/-- `str(r['date'])` on a `datetime.date`: the ISO form `YYYY-MM-DD`. -/
def dateIso (d : Date) : String :=
  pad4 d.year ++ "-" ++ pad2 d.month ++ "-" ++ pad2 d.day

/-- Python's `.2f` formatting of a currency value: the value rounded to
hundredths, printed with exactly two fractional digits.  (`f"{v:.2f}"` on the
binary float; on the rational model, `round` to the nearest hundredth.) -/
def fmt2 (q : ℚ) : String :=
  let n : ℤ := round (q * 100)
  let sgn := if n < 0 then "-" else ""
  sgn ++ toString (n.natAbs / 100) ++ "." ++ pad2 (n.natAbs % 100)

/-- The text colors `create_pdf_report` sets with `set_text_color`:
black `(0,0,0)`, purple `(102,126,234)`, green `(0,128,0)`, red `(255,0,0)`,
white `(255,255,255)` for the table header. -/
inductive Color
  | black
  | purple
  | green
  | red
  | white
deriving DecidableEq, Repr

/-- A piece of the rendered PDF: a text line, or a table row of cells,
each with the text color in force when it is written. -/
inductive PdfItem
  | line (text : String) (color : Color)
  | tableRow (cells : List String) (color : Color)
deriving DecidableEq, Repr

/-- `color = (0, 128, 0) if row['value'] >= 0 else (255, 0, 0)` for the
Balance metric, `(0, 0, 0)` otherwise (`src/app1.py` lines 237-242). -/
def metricColor (metric : String) (value : ℚ) : Color :=
  if metric == "Balance" then (if 0 ≤ value then Color.green else Color.red)
  else Color.black

/-- The summary block: one line per metric row,
`f"{row['metric']}: {row['value']:.2f} {currency}"` (line 243). -/
def summaryLines (summary : List (String × ℚ)) (currency : String) : List PdfItem :=
  summary.map (fun r => PdfItem.line (r.1 ++ ": " ++ fmt2 r.2 ++ " " ++ currency) (metricColor r.1 r.2))

/-- `add_category_breakdown` (`src/app1.py` lines 249-259): the placeholder
line when the breakdown frame is empty, else one line per category. -/
def categoryLines (catdf : List (String × ℚ)) (currency : String) : List PdfItem :=
  if catdf = [] then [PdfItem.line "No category data available." Color.black]
  else catdf.map (fun r => PdfItem.line (r.1 ++ ": " ++ fmt2 r.2 ++ " " ++ currency) Color.black)

/-- The transaction table (`src/app1.py` lines 269-286): the placeholder when
the frame is empty, else a white header row followed by `df.head(20)` rendered
with `str(r['date'])`, the type, `str(r['category'])[:30]` and the formatted
amount. -/
def txTableItems (df : List Tx) (currency : String) : List PdfItem :=
  if df = [] then [PdfItem.line "No transactions to show." Color.black]
  else
    PdfItem.tableRow ["Date", "Type", "Category", "Amount (" ++ currency ++ ")"] Color.white
      :: (df.take 20).map (fun r =>
          PdfItem.tableRow [dateIso r.date, r.type, r.category.take 30, fmt2 r.amount] Color.black)

/-- `create_pdf_report` (`src/app1.py` lines 219-288), as the sequence of
text items it writes: title, summary block, category block, transaction
table.  The byte-level FPDF layout (fonts, cell widths, page breaks) carries
no further data and is not modelled. -/
def create_pdf_report (df : List Tx) (summary_df catdf : List (String × ℚ))
    (period_name currency : String) : List PdfItem :=
  PdfItem.line ("Budget Report - " ++ period_name) Color.purple
    :: PdfItem.line "Financial Summary" Color.black
    :: summaryLines summary_df currency
    ++ [PdfItem.line "Category Breakdown" Color.black]
    ++ categoryLines catdf currency
    ++ [PdfItem.line "Recent Transactions" Color.black]
    ++ txTableItems df currency

/-- The cell rows of the rendered transaction table, in order. -/
def tableRowsOf (items : List PdfItem) : List (List String) :=
  items.filterMap (fun i =>
    match i with
    | PdfItem.tableRow cells _ => some cells
    | PdfItem.line _ _ => none)

/-- A nonempty all-digit run read as a natural number. -/
def parseNatDigits : List Char → Option ℕ
  | [] => none
  | cs => cs.foldlM (fun n c => if c.isDigit then some (10 * n + (c.toNat - 48)) else none) 0

/-- The whitespace Python's default `strip` removes. -/
def isSpaceChar (c : Char) : Bool :=
  c == ' ' || c == '\t' || c == '\n' || c == '\r'

/-- Strip surrounding whitespace from a character sequence. -/
def trimChars (cs : List Char) : List Char :=
  ((cs.dropWhile isSpaceChar).reverse.dropWhile isSpaceChar).reverse

/-- Split a character sequence at every delimiter, keeping empty pieces,
as `str.split` does. -/
def splitOnChar (p : Char → Bool) : List Char → List (List Char)
  | [] => [[]]
  | c :: cs =>
    if p c then [] :: splitOnChar p cs
    else
      match splitOnChar p cs with
      | [] => [[c]]
      | r :: rs => (c :: r) :: rs

/-- Python's `str.strip()`. -/
def pyStrip (s : String) : String :=
  String.mk (trimChars s.data)

/-- An optional leading sign: whether it is a minus, and the rest. -/
def parseSign : List Char → Bool × List Char
  | '-' :: r => (true, r)
  | '+' :: r => (false, r)
  | r => (false, r)

/-- The mantissa of a numeric literal: digits, with one optional decimal
point, at least one digit in all. -/
def parseMantissa (cs : List Char) : Option ℚ :=
  match splitOnChar (fun c => c == '.') cs with
  | [i] => (parseNatDigits i).map (fun n => (n : ℚ))
  | [i, f] =>
    if i = [] ∧ f = [] then none
    else
      match (if i = [] then some 0 else parseNatDigits i),
            (if f = [] then some 0 else parseNatDigits f) with
      | some a, some b => some ((a : ℚ) + (b : ℚ) / (10 : ℚ) ^ f.length)
      | _, _ => none
  | _ => none

/-- An optionally signed decimal exponent. -/
def parseExp (cs : List Char) : Option ℤ :=
  match parseSign cs with
  | (neg, body) => (parseNatDigits body).map (fun n => if neg then -(n : ℤ) else (n : ℤ))

/-- `pd.to_numeric` on one string cell: an optionally signed decimal literal
with optional fraction and optional `e`/`E` exponent, surrounding whitespace
ignored.  (The exotic literals `inf`/`nan` are modelled as non-numeric; no
budget upload carries them.)  `"abc"` parses to `none`. -/
def parseNum (s : String) : Option ℚ :=
  match parseSign (trimChars s.data) with
  | (neg, body) =>
    match splitOnChar (fun c => c == 'e' || c == 'E') body with
    | [mant] => (parseMantissa mant).map (fun q => if neg then -q else q)
    | [mant, ex] =>
      match parseMantissa mant, parseExp ex with
      | some m, some e =>
        let q := m * (10 : ℚ) ^ e
        some (if neg then -q else q)
      | _, _ => none
    | _ => none

/-- `pd.to_datetime` on one string cell, for the ISO `YYYY-MM-DD` layout the
application writes and reads back; out-of-range month or day components are
rejected as pandas rejects them. -/
def parseDateIso (s : String) : Option Date :=
  match splitOnChar (fun c => c == '-') (trimChars s.data) with
  | [y, m, d] =>
    match parseNatDigits y, parseNatDigits m, parseNatDigits d with
    | some yn, some mn, some dn =>
      if 1 ≤ mn ∧ mn ≤ 12 ∧ 1 ≤ dn ∧ dn ≤ 31 then some ⟨yn, mn, dn⟩ else none
    | _, _, _ => none
  | _ => none

/-- One cell of an uploaded or exported table, carrying the value as the
surrounding pandas frame types it: free text, a number, or a date. -/
inductive Cell
  | str (s : String)
  | num (q : ℚ)
  | date (d : Date)
deriving DecidableEq, Repr

/-- A decoded tabular file: its filename, header columns, and rows of cells
aligned with the columns.  The CSV/Excel byte decoding itself is done by
pandas upstream of the validated logic (`pd.read_csv` / `pd.read_excel`). -/
structure Table where
  name : String
  cols : List String
  rows : List (List Cell)
deriving DecidableEq, Repr

/-- `required_cols = ['type', 'category', 'amount', 'currency', 'date']`
(`src/app1.py` line 301). -/
def requiredCols : List String :=
  ["type", "category", "amount", "currency", "date"]

/-- The position of a named column in the header. -/
def colIdx (cols : List String) (c : String) : Option ℕ :=
  cols.findIdx? (fun x => x == c)

/-- `pd.to_numeric` on one cell of the amount column: numbers pass through,
strings must parse, and a date object raises (is `none`). -/
def coerceAmountCell : Cell → Option Cell
  | Cell.num q => some (Cell.num q)
  | Cell.str s => (parseNum s).map Cell.num
  | Cell.date _ => none

/-- `pd.to_datetime(...).dt.date` on one cell of the date column: dates pass
through and strings must parse.  (A raw number would be read as an epoch
offset by pandas; no table in this development types the date column
numerically, so it is modelled as a coercion failure.) -/
def coerceDateCell : Cell → Option Cell
  | Cell.date d => some (Cell.date d)
  | Cell.str s => (parseDateIso s).map Cell.date
  | Cell.num _ => none

/-- Coerce the cell at one column position of a row. -/
def coerceAt (f : Cell → Option Cell) (i : ℕ) (row : List Cell) : Option (List Cell) :=
  match row.get? i with
  | none => none
  | some c => (f c).map (fun c2 => row.set i c2)

/-- Coerce one column across all rows, failing if any cell fails
(as `pd.to_numeric` / `pd.to_datetime` fail on a whole column at once). -/
def coerceRows (f : Cell → Option Cell) (i : ℕ) : List (List Cell) → Option (List (List Cell))
  | [] => some []
  | r :: rs =>
    match coerceAt f i r with
    | none => none
    | some r2 => (coerceRows f i rs).map (fun rest => r2 :: rest)

/-- The `try` block of `process_uploaded_file` (`src/app1.py` lines 306-308):
`df['amount'] = pd.to_numeric(df['amount'])` then
`df['date'] = pd.to_datetime(df['date']).dt.date`; `none` is the raised
exception the bare `except` catches. -/
def coerceTypes (u : Table) : Option Table :=
  match colIdx u.cols "amount", colIdx u.cols "date" with
  | some ai, some di =>
    (coerceRows coerceAmountCell ai u.rows).bind (fun rows1 =>
      (coerceRows coerceDateCell di rows1).map (fun rows2 => { u with rows := rows2 }))
  | _, _ => none

/-- Python's `str.endswith`, on the character sequences of the strings. -/
def strEndsWith (s sfx : String) : Bool :=
  sfx.data.isSuffixOf s.data

/-- The `(df, message)` / `(None, message)` pair `process_uploaded_file`
returns. -/
inductive UploadResult
  | failure (msg : String)
  | success (t : Table) (msg : String)
deriving DecidableEq, Repr

/-- `process_uploaded_file` (`src/app1.py` lines 291-315): extension gate,
missing-column check with `', '.join(missing_cols)`, then type coercion;
a coercion failure is the generic type-error message. -/
def process_uploaded_file (u : Table) : UploadResult :=
  if strEndsWith u.name ".csv" || strEndsWith u.name ".xlsx" then
    let missing_cols := requiredCols.filter (fun c => !(u.cols.contains c))
    if missing_cols ≠ [] then
      UploadResult.failure ("Missing required columns: " ++ String.intercalate ", " missing_cols)
    else
      match coerceTypes u with
      | none => UploadResult.failure "Invalid data types in amount or date columns"
      | some u2 => UploadResult.success u2 "File processed successfully!"
  else
    UploadResult.failure "Unsupported file format. Please upload CSV or Excel file."

/-- `to_excel_bytes` (`src/app1.py` lines 209-217), at the level of the
`transactions` sheet pandas writes and reads back: `df.to_excel(writer,
index=False)` emits the frame's columns in order with each value typed as
stored (ids and amounts numeric, dates as dates, text as text).  The xlsx
byte encoding and decoding are the external pandas/openpyxl collaborators
and are lossless for these cell types.
One exported row, each value typed as stored: -/
def excelRow (t : Tx) : List Cell :=
  [Cell.num t.id, Cell.str t.type, Cell.str t.category, Cell.num t.amount,
   Cell.str t.currency, Cell.date t.date, Cell.str t.notes]

/-- The `transactions` sheet: the frame's columns in the stored order, one
`excelRow` per transaction. -/
def to_excel_table (df : List Tx) : Table :=
  { name := "budget_tracker_all.xlsx"
    cols := ["id", "type", "category", "amount", "currency", "date", "notes"]
    rows := df.map excelRow }

/-- Read a named cell of a row (the row's value under the header column). -/
def cellAt (cols : List String) (row : List Cell) (c : String) : Cell :=
  match colIdx cols c with
  | some i => row.getD i (Cell.str "")
  | none => Cell.str ""

/-- The text content of a cell. -/
def cellStr : Cell → String
  | Cell.str s => s
  | Cell.num q => toString q
  | Cell.date d => dateIso d

/-- The numeric content of a cell (0 when it is not numeric). -/
def cellRat : Cell → ℚ
  | Cell.num q => q
  | Cell.str _ => 0
  | Cell.date _ => 0

/-- The date content of a cell (the epoch date when it is not a date). -/
def cellDate : Cell → Date
  | Cell.date d => d
  | Cell.str _ => ⟨1970, 1, 1⟩
  | Cell.num _ => ⟨1970, 1, 1⟩

/-- The largest id already assigned (`AUTOINCREMENT`'s high-water mark,
0 on an empty table). -/
def maxId (st : List Tx) : ℕ :=
  st.foldr (fun t m => max t.id m) 0

/-- One imported row as the transaction SQLite stores for it: the named
columns verbatim, the next autoincrement id, empty notes when the upload has
no notes column (SQLite leaves the column NULL). -/
def txOfRow (cols : List String) (row : List Cell) (id : ℕ) : Tx :=
  { id := id
    type := cellStr (cellAt cols row "type")
    category := cellStr (cellAt cols row "category")
    amount := cellRat (cellAt cols row "amount")
    currency := cellStr (cellAt cols row "currency")
    date := cellDate (cellAt cols row "date")
    notes := cellStr (cellAt cols row "notes") }

/-- The transactions a bulk insert appends, ids assigned in row order. -/
def insertedTxs (nextId : ℕ) (cols : List String) : List (List Cell) → List Tx
  | [] => []
  | r :: rs => txOfRow cols r nextId :: insertedTxs (nextId + 1) cols rs

/-- `bulk_insert_transactions` (`src/app1.py` lines 128-133):
`transactions_df.to_sql('transactions', ..., if_exists='append')` appends
every row of the validated frame verbatim, ids autoincremented. -/
def bulk_insert_transactions (st : List Tx) (t : Table) : List Tx :=
  st ++ insertedTxs (maxId st + 1) t.cols t.rows

/-- `add_transaction` (`src/app1.py` lines 110-118): a plain INSERT of the
given fields, id autoincremented. -/
def add_transaction (st : List Tx) (tx_type category : String) (amount : ℚ)
    (currency : String) (d : Date) (notes : String) : List Tx :=
  st ++ [{ id := maxId st + 1, type := tx_type, category := category,
           amount := amount, currency := currency, date := d, notes := notes }]

/-- The sidebar form's submit handler (`src/app1.py` lines 335-343): only a
strictly positive amount is inserted, with
`category.strip() or "General"` as the category. -/
def form_add (st : List Tx) (tx_type category : String) (amount : ℚ)
    (currency : String) (d : Date) (notes : String) : List Tx :=
  if 0 < amount then
    add_transaction st tx_type (if pyStrip category = "" then "General" else pyStrip category)
      amount currency d notes
  else st

/-- The spec's transaction invariants (§3): a non-negative amount, a kind
drawn from income/expense, and a non-empty category. -/
def txInvariant (t : Tx) : Prop :=
  0 ≤ t.amount ∧ (t.type = "income" ∨ t.type = "expense") ∧ t.category ≠ ""

instance (t : Tx) : Decidable (txInvariant t) := by
  unfold txInvariant; infer_instance

/-- The spec's §8 scenario: a January salary. -/
def txSalary : Tx :=
  { id := 1, type := "income", category := "Salary", amount := 50000,
    currency := "PKR", date := ⟨2024, 1, 5⟩, notes := "" }

/-- The spec's §8 scenario: January rent. -/
def txRent : Tx :=
  { id := 2, type := "expense", category := "Rent", amount := 15000,
    currency := "PKR", date := ⟨2024, 1, 10⟩, notes := "" }

/-- The spec's §8 scenario: February groceries. -/
def txGroceries : Tx :=
  { id := 3, type := "expense", category := "Groceries", amount := 8000,
    currency := "PKR", date := ⟨2024, 2, 1⟩, notes := "" }

/-- The spec's §8 scenario transaction set. -/
def sampleTxs : List Tx :=
  [txSalary, txRent, txGroceries]

/-- An upload whose header lacks the amount and currency columns. -/
def uploadMissingCols : Table :=
  { name := "upload.csv", cols := ["type", "category", "date"], rows := [] }

/-- An upload with all required columns whose amount cell is the non-numeric
text `"abc"`. -/
def uploadAbcAmount : Table :=
  { name := "upload.csv"
    cols := ["type", "category", "amount", "currency", "date"]
    rows := [[Cell.str "expense", Cell.str "Food", Cell.str "abc",
              Cell.str "PKR", Cell.str "2024-01-05"]] }

/-- An upload that passes every check `process_uploaded_file` performs while
violating all three transaction invariants: kind `"spend"`, blank category,
amount `-5`. -/
def uploadBadValues : Table :=
  { name := "upload.csv"
    cols := ["type", "category", "amount", "currency", "date"]
    rows := [[Cell.str "spend", Cell.str "", Cell.num (-5),
              Cell.str "PKR", Cell.date ⟨2024, 1, 1⟩]] }

/-- The transaction the bulk import of `uploadBadValues` stores. -/
def badImportedTx : Tx :=
  { id := 1, type := "spend", category := "", amount := -5,
    currency := "PKR", date := ⟨2024, 1, 1⟩, notes := "" }

/-! ## Theorems -/

/-- C1 (counterexample): on the empty transaction set, `monthly_summary`
returns the empty metric/value frame — not the all-zeros summary the claim
states. -/
theorem c1_counterexample :
    monthly_summary [] none none = [] ∧
      monthly_summary [] none none ≠
        [("Total Income", 0), ("Total Expense", 0), ("Balance", 0)] := by
  exact ⟨rfl, by decide⟩

/-- C1 (amended): for a NON-empty input whose post-filter set is empty,
`monthly_summary` returns the all-zeros summary, never an error; the empty
input instead returns the empty metric/value frame. -/
theorem c1_empty_postfilter_zeros (df : List Tx) (year month : Option ℕ)
    (hdf : df ≠ []) (hf : filterMonth month (filterYear year df) = []) :
    monthly_summary df year month =
      [("Total Income", 0), ("Total Expense", 0), ("Balance", 0)] := by
  simp [monthly_summary, hdf, hf, totalForType]

/-- C1 witness: a one-row 2024 set filtered to 2023 has an empty post-filter
set and yields the all-zeros summary. -/
theorem c1_empty_postfilter_zeros_witness :
    monthly_summary [txSalary] (some 2023) none =
      [("Total Income", 0), ("Total Expense", 0), ("Balance", 0)] :=
  c1_empty_postfilter_zeros [txSalary] (some 2023) none (by decide) (by decide)

/-- C2: whenever the summary `monthly_summary` returns carries the three
metrics, the Balance value equals the Total Income value minus the Total
Expense value. -/
theorem c2_balance_eq_income_sub_expense (df : List Tx) (year month : Option ℕ)
    (i e b : ℚ)
    (hi : getMetric (monthly_summary df year month) "Total Income" = some i)
    (he : getMetric (monthly_summary df year month) "Total Expense" = some e)
    (hb : getMetric (monthly_summary df year month) "Balance" = some b) :
    b = i - e := by
  by_cases hdf : df = []
  · simp [monthly_summary, hdf, getMetric] at hi
  · simp [monthly_summary, hdf, getMetric] at hi he hb
    rw [← hi, ← he, ← hb]

/-- C2 witness: the spec's §8 scenario filtered to January 2024 gives
balance 35000 = 50000 - 15000. -/
theorem c2_balance_eq_income_sub_expense_witness :
    (35000 : ℚ) = 50000 - 15000 :=
  c2_balance_eq_income_sub_expense sampleTxs (some 2024) (some 1)
    50000 15000 35000
    (by simp +decide [getMetric, monthly_summary, sampleTxs, txSalary, txRent, txGroceries,
      totalForType, filterMonth, filterYear])
    (by simp +decide [getMetric, monthly_summary, sampleTxs, txSalary, txRent, txGroceries,
      totalForType, filterMonth, filterYear])
    (by simp +decide [getMetric, monthly_summary, sampleTxs, txSalary, txRent, txGroceries,
      totalForType, filterMonth, filterYear]
        norm_num)

/-- C6: PDF rendering of an empty transaction set with an empty category
breakdown substitutes the two placeholder lines and returns a document (the
rendering function is total). -/
theorem c6_empty_pdf_placeholders (summary : List (String × ℚ)) (period currency : String) :
    PdfItem.line "No category data available." Color.black ∈
        create_pdf_report [] summary [] period currency ∧
      PdfItem.line "No transactions to show." Color.black ∈
        create_pdf_report [] summary [] period currency := by
  simp [create_pdf_report, categoryLines, txTableItems]

/-- C10: the Balance summary line is colored green exactly when the balance
is at least 0 — red if and only if it is strictly negative — and a zero
balance renders green in the report. -/
theorem c10_balance_color :
    metricColor "Balance" 0 = Color.green ∧
      (∀ v : ℚ, metricColor "Balance" v = Color.red ↔ v < 0) ∧
      PdfItem.line ("Balance: " ++ fmt2 0 ++ " PKR") Color.green ∈
        create_pdf_report [] [("Balance", 0)] [] "All time" "PKR" := by
  refine ⟨rfl, fun v => ?_, ?_⟩
  · unfold metricColor
    by_cases h : 0 ≤ v
    · simp [h, not_lt.mpr h]
    · simp [h, lt_of_not_le h]
  · simp [create_pdf_report, summaryLines, metricColor, categoryLines, txTableItems,
      String.append_assoc]
    rw [← String.append_assoc]; rfl

lemma coerceRows_eq_none {f : Cell → Option Cell} {i : ℕ} {rows : List (List Cell)}
    {r : List Cell} (hr : r ∈ rows) (hfail : coerceAt f i r = none) :
    coerceRows f i rows = none := by
  induction rows with
  | nil => cases hr
  | cons a as ih =>
    rcases List.mem_cons.mp hr with rfl | hmem
    · simp [coerceRows, hfail]
    · cases ha : coerceAt f i a with
      | none => simp [coerceRows, ha]
      | some a2 => simp [coerceRows, ha, ih hmem]

lemma coerceAt_str_none {f : Cell → Option Cell} {i : ℕ} {r : List Cell} {s : String}
    (hs : r.get? i = some (Cell.str s)) (hf : f (Cell.str s) = none) :
    coerceAt f i r = none := by
  unfold coerceAt
  rw [hs]
  show Option.map (fun c2 => r.set i c2) (f (Cell.str s)) = none
  rw [hf]
  rfl

/-- C4: with all other checks passed, a table lacking required columns is
rejected with a message naming exactly the missing columns, comma-joined, in
the fixed order of `required_cols`. -/
theorem c4_missing_columns_message (t : Table)
    (hext : (strEndsWith t.name ".csv" || strEndsWith t.name ".xlsx") = true)
    (hmiss : requiredCols.filter (fun c => !(t.cols.contains c)) ≠ []) :
    process_uploaded_file t =
      UploadResult.failure ("Missing required columns: " ++
        String.intercalate ", " (requiredCols.filter (fun c => !(t.cols.contains c)))) := by
  unfold process_uploaded_file
  rw [if_pos hext, if_pos hmiss]

/-- C4 witness: a table missing only amount and currency is rejected with the
message naming exactly "amount, currency". -/
theorem c4_missing_columns_message_witness :
    process_uploaded_file uploadMissingCols =
      UploadResult.failure "Missing required columns: amount, currency" := by
  have h := c4_missing_columns_message uploadMissingCols (by decide) (by decide)
  exact h.trans (by decide)

/-- C5: a table with every required column whose amount column holds a
non-numeric string — or, the amount column coercing, whose date column holds
a non-date string — is answered with the generic type-error result carrying
no records, not an exception. -/
theorem c5_type_error_on_bad_coercion (t : Table) (ai di : ℕ)
    (hext : (strEndsWith t.name ".csv" || strEndsWith t.name ".xlsx") = true)
    (hmiss : requiredCols.filter (fun c => !(t.cols.contains c)) = [])
    (hai : colIdx t.cols "amount" = some ai)
    (hdi : colIdx t.cols "date" = some di)
    (hbad : (∃ r ∈ t.rows, ∃ s, r.get? ai = some (Cell.str s) ∧ parseNum s = none) ∨
      (∃ rows1, coerceRows coerceAmountCell ai t.rows = some rows1 ∧
        ∃ r ∈ rows1, ∃ s, r.get? di = some (Cell.str s) ∧ parseDateIso s = none)) :
    process_uploaded_file t =
      UploadResult.failure "Invalid data types in amount or date columns" := by
  have hct : coerceTypes t = none := by
    unfold coerceTypes
    rw [hai, hdi]
    rcases hbad with ⟨r, hr, s, hs, hps⟩ | ⟨rows1, h1, r, hr, s, hs, hps⟩
    · have h2 : coerceAt coerceAmountCell ai r = none :=
        coerceAt_str_none hs (by simp [coerceAmountCell, hps])
      simp [coerceRows_eq_none hr h2]
    · have h2 : coerceAt coerceDateCell di r = none :=
        coerceAt_str_none hs (by simp [coerceDateCell, hps])
      simp [h1, coerceRows_eq_none hr h2]
  unfold process_uploaded_file
  rw [if_pos hext]
  simp only [hmiss]
  rw [if_neg (fun h => h rfl), hct]

/-- C5 witness: amount "abc" draws the type-error message, not a crash. -/
theorem c5_type_error_on_bad_coercion_witness :
    process_uploaded_file uploadAbcAmount =
      UploadResult.failure "Invalid data types in amount or date columns" :=
  c5_type_error_on_bad_coercion uploadAbcAmount 2 4 (by decide) (by decide)
    (by decide) (by decide)
    (Or.inl ⟨[Cell.str "expense", Cell.str "Food", Cell.str "abc",
              Cell.str "PKR", Cell.str "2024-01-05"],
      by decide, "abc", by decide, by decide⟩)

lemma coerceRows_excel_amount (txs : List Tx) :
    coerceRows coerceAmountCell 3 (txs.map excelRow) = some (txs.map excelRow) := by
  induction txs with
  | nil => rfl
  | cons t ts ih => simp [excelRow, coerceRows, coerceAt, coerceAmountCell, ih]

lemma coerceRows_excel_date (txs : List Tx) :
    coerceRows coerceDateCell 5 (txs.map excelRow) = some (txs.map excelRow) := by
  induction txs with
  | nil => rfl
  | cons t ts ih => simp [excelRow, coerceRows, coerceAt, coerceDateCell, ih]

/-- C8: exporting any transaction set to the spreadsheet form and re-importing
it through the validator succeeds and returns the records unchanged
field-for-field. -/
theorem c8_excel_roundtrip (txs : List Tx) :
    process_uploaded_file (to_excel_table txs) =
      UploadResult.success (to_excel_table txs) "File processed successfully!" := by
  simp [process_uploaded_file, to_excel_table, requiredCols, coerceTypes, colIdx,
    coerceRows_excel_amount, coerceRows_excel_date]
  intro h
  revert h
  decide

lemma tableRowsOf_nil : tableRowsOf [] = [] := rfl

lemma tableRowsOf_cons_line (t : String) (c : Color) (l : List PdfItem) :
    tableRowsOf (PdfItem.line t c :: l) = tableRowsOf l := rfl

lemma tableRowsOf_cons_row (cs : List String) (c : Color) (l : List PdfItem) :
    tableRowsOf (PdfItem.tableRow cs c :: l) = cs :: tableRowsOf l := rfl

lemma tableRowsOf_append (l1 l2 : List PdfItem) :
    tableRowsOf (l1 ++ l2) = tableRowsOf l1 ++ tableRowsOf l2 :=
  List.filterMap_append l1 l2 _

lemma tableRowsOf_summaryLines (s : List (String × ℚ)) (c : String) :
    tableRowsOf (summaryLines s c) = [] := by
  induction s with
  | nil => rfl
  | cons r rs ih => simpa [summaryLines, tableRowsOf_cons_line] using ih

lemma tableRowsOf_catLineMap (l : List (String × ℚ)) (c : String) :
    tableRowsOf (l.map (fun r =>
      PdfItem.line (r.1 ++ ": " ++ fmt2 r.2 ++ " " ++ c) Color.black)) = [] := by
  induction l with
  | nil => rfl
  | cons r rs ih => simpa [tableRowsOf_cons_line] using ih

lemma tableRowsOf_categoryLines (catdf : List (String × ℚ)) (c : String) :
    tableRowsOf (categoryLines catdf c) = [] := by
  unfold categoryLines
  by_cases h : catdf = []
  · rw [if_pos h]; rfl
  · rw [if_neg h]
    exact tableRowsOf_catLineMap catdf c

lemma tableRowsOf_rowMap (df : List Tx) :
    tableRowsOf (df.map (fun r =>
        PdfItem.tableRow [dateIso r.date, r.type, r.category.take 30, fmt2 r.amount]
          Color.black)) =
      df.map (fun r => [dateIso r.date, r.type, r.category.take 30, fmt2 r.amount]) := by
  induction df with
  | nil => rfl
  | cons t ts ih => simpa [tableRowsOf_cons_row] using ih

/-- C7: for a non-empty store, the PDF's transaction table is the header row
followed by exactly the first 20 stored rows, in `Store.all()` order (date
descending, then id descending), each rendered as ISO date, type, category
truncated to its first 30 characters, and formatted amount; rows beyond the
20th are omitted. -/
theorem c7_pdf_table_first_20 (txs : List Tx) (summary catdf : List (String × ℚ))
    (period currency : String) (h : storeAll txs ≠ []) :
    tableRowsOf (create_pdf_report (storeAll txs) summary catdf period currency) =
      ["Date", "Type", "Category", "Amount (" ++ currency ++ ")"]
        :: ((storeAll txs).take 20).map
            (fun r => [dateIso r.date, r.type, r.category.take 30, fmt2 r.amount]) := by
  unfold create_pdf_report txTableItems
  rw [if_neg h]
  simp only [tableRowsOf_cons_line, tableRowsOf_cons_row, tableRowsOf_append,
    tableRowsOf_summaryLines, tableRowsOf_categoryLines, tableRowsOf_rowMap,
    tableRowsOf_nil, List.nil_append, List.append_nil]

/-- C7 witness: the §8 scenario's three rows render below the header in date
descending order. -/
theorem c7_pdf_table_first_20_witness :
    tableRowsOf (create_pdf_report (storeAll sampleTxs) [] [] "All time" "PKR") =
      ["Date", "Type", "Category", "Amount (" ++ "PKR" ++ ")"]
        :: ((storeAll sampleTxs).take 20).map
            (fun r => [dateIso r.date, r.type, r.category.take 30, fmt2 r.amount]) :=
  c7_pdf_table_first_20 sampleTxs [] [] "All time" "PKR" (by decide)

/-- C9 (counterexample): a bulk import is accepted by every check
`process_uploaded_file` performs and inserts a transaction with kind
`"spend"`, a blank category and amount `-5`, violating all three invariants
the claim states for every transaction entering the store. -/
theorem c9_counterexample :
    process_uploaded_file uploadBadValues =
        UploadResult.success uploadBadValues "File processed successfully!" ∧
      bulk_insert_transactions [] uploadBadValues = [badImportedTx] ∧
      ¬ txInvariant badImportedTx := by
  refine ⟨rfl, rfl, ?_⟩
  intro hinv
  have h := hinv.1
  norm_num [badImportedTx] at h

/-- C9 (amended): transactions inserted through the sidebar form do satisfy
the invariants — the form only submits a strictly positive amount, its type
selector offers only expense and income, and a blank category defaults to
"General" — and the insert preserves the invariants of the rows already
stored.  (Bulk import checks none of this, see the counterexample.) -/
theorem c9_form_invariants (st : List Tx) (ty catg : String) (amt : ℚ)
    (cur : String) (d : Date) (nts : String)
    (hty : ty = "expense" ∨ ty = "income")
    (hst : ∀ tx ∈ st, txInvariant tx) :
    ∀ tx ∈ form_add st ty catg amt cur d nts, txInvariant tx := by
  intro tx htx
  unfold form_add at htx
  by_cases hamt : 0 < amt
  · rw [if_pos hamt] at htx
    unfold add_transaction at htx
    rcases List.mem_append.mp htx with hmem | hmem
    · exact hst tx hmem
    · have htx2 := List.mem_singleton.mp hmem
      subst htx2
      refine ⟨le_of_lt hamt, ?_, ?_⟩
      · show ty = "income" ∨ ty = "expense"
        exact hty.symm
      · show (if pyStrip catg = "" then "General" else pyStrip catg) ≠ ""
        by_cases hc : pyStrip catg = ""
        · simp [hc]
        · simp [hc]
  · rw [if_neg hamt] at htx
    exact hst tx htx

/-- C9 witness: submitting the form with type income, a blank category and
amount 5 stores a transaction satisfying the invariants. -/
theorem c9_form_invariants_witness :
    txInvariant ⟨1, "income", "General", 5, "PKR", ⟨2024, 1, 1⟩, ""⟩ :=
  c9_form_invariants [] "income" " " 5 "PKR" ⟨2024, 1, 1⟩ ""
    (Or.inr rfl) (by simp)
    (⟨1, "income", "General", 5, "PKR", ⟨2024, 1, 1⟩, ""⟩ : Tx)
    (by norm_num [form_add, add_transaction, maxId]
        decide)

/-! Supporting facts about the embedded `Store.all()` order: `storeAll`
returns a permutation of the stored rows that is pairwise in the
`ORDER BY date DESC, id DESC` order `txBefore` embeds. -/

lemma dateLt_iff (x y : Date) :
    dateLt x y = true ↔
      (x.year < y.year ∨ (x.year = y.year ∧
        (x.month < y.month ∨ (x.month = y.month ∧ x.day < y.day)))) := by
  simp [dateLt]

lemma txBefore_iff (a b : Tx) :
    txBefore a b = true ↔
      (dateLt b.date a.date = true ∨ (a.date = b.date ∧ b.id ≤ a.id)) := by
  simp [txBefore]

lemma txBefore_total (a b : Tx) : txBefore a b = true ∨ txBefore b a = true := by
  rcases a with ⟨i1, _, _, _, _, ⟨y1, m1, d1⟩, _⟩
  rcases b with ⟨i2, _, _, _, _, ⟨y2, m2, d2⟩, _⟩
  simp only [txBefore_iff, dateLt_iff, Date.mk.injEq]
  omega

lemma txBefore_trans {a b c : Tx} (h1 : txBefore a b = true)
    (h2 : txBefore b c = true) : txBefore a c = true := by
  rcases a with ⟨i1, _, _, _, _, ⟨y1, m1, d1⟩, _⟩
  rcases b with ⟨i2, _, _, _, _, ⟨y2, m2, d2⟩, _⟩
  rcases c with ⟨i3, _, _, _, _, ⟨y3, m3, d3⟩, _⟩
  simp only [txBefore_iff, dateLt_iff, Date.mk.injEq] at h1 h2 ⊢
  omega

lemma mem_insertTx {t b : Tx} {l : List Tx} (hb : b ∈ insertTx t l) :
    b = t ∨ b ∈ l := by
  induction l with
  | nil => simpa [insertTx] using hb
  | cons x xs ih =>
    unfold insertTx at hb
    by_cases hc : txBefore t x = true
    · rw [if_pos hc] at hb
      rcases List.mem_cons.mp hb with rfl | h2
      · exact Or.inl rfl
      · exact Or.inr h2
    · rw [if_neg hc] at hb
      rcases List.mem_cons.mp hb with rfl | h2
      · exact Or.inr (List.mem_cons_self b xs)
      · rcases ih h2 with h3 | h3
        · exact Or.inl h3
        · exact Or.inr (List.mem_cons_of_mem x h3)

lemma insertTx_pairwise {t : Tx} {l : List Tx}
    (h : l.Pairwise (fun a b => txBefore a b = true)) :
    (insertTx t l).Pairwise (fun a b => txBefore a b = true) := by
  induction l with
  | nil => simp [insertTx]
  | cons x xs ih =>
    rcases List.pairwise_cons.mp h with ⟨hx, hxs⟩
    unfold insertTx
    by_cases hc : txBefore t x = true
    · rw [if_pos hc]
      refine List.pairwise_cons.mpr ⟨?_, h⟩
      intro b hb
      rcases List.mem_cons.mp hb with rfl | hb2
      · exact hc
      · exact txBefore_trans hc (hx b hb2)
    · rw [if_neg hc]
      refine List.pairwise_cons.mpr ⟨?_, ih hxs⟩
      intro b hb
      rcases mem_insertTx hb with hbt | hb2
      · rw [hbt]
        rcases txBefore_total t x with h3 | h3
        · exact absurd h3 hc
        · exact h3
      · exact hx b hb2

lemma insertTx_perm (t : Tx) (l : List Tx) : (insertTx t l).Perm (t :: l) := by
  induction l with
  | nil => exact List.Perm.refl _
  | cons x xs ih =>
    unfold insertTx
    by_cases hc : txBefore t x = true
    · rw [if_pos hc]
    · rw [if_neg hc]
      exact (ih.cons x).trans (List.Perm.swap t x xs)

/-- `storeAll` lists the rows in the `ORDER BY date DESC, id DESC` order:
every row comes `txBefore` every later row. -/
theorem storeAll_sorted (txs : List Tx) :
    (storeAll txs).Pairwise (fun a b => txBefore a b = true) := by
  unfold storeAll
  induction txs with
  | nil => simp
  | cons t ts ih =>
    simp only [List.foldr_cons]
    exact insertTx_pairwise ih

/-- `storeAll` returns exactly the stored rows, reordered. -/
theorem storeAll_perm (txs : List Tx) : (storeAll txs).Perm txs := by
  unfold storeAll
  induction txs with
  | nil => exact List.Perm.refl _
  | cons t ts ih =>
    simp only [List.foldr_cons]
    exact (insertTx_perm t _).trans (ih.cons t)

end BudgetTracker
